import Mathlib

/-!
Verification of the portable-SIMD crate (stdsimd crate root, src/lib.rs).

The repository under verification ships only the crate root `src/lib.rs`:
a declarative shell that declares the `simd` and `vendor` modules, documents
the portable vector types and the runtime feature-detection macro, and shows
doc examples exercising them.  The implementation modules it declares
(`v64.rs`, `v128.rs`, `v256.rs`, `v512.rs`, `macros.rs`, `x86.rs`, `arm.rs`)
are not part of the given sources, so the vector-type operations and the
feature-detection registry are modelled from the specification, while the
module structure and re-export gating are embedded directly from `lib.rs`.
-/

namespace Stdsimd

/-- Modelled from the spec: the Lane Type Catalog (section 2, item 1) of the
missing `v64`/`v128`/`v256`/`v512` modules — scalar element kinds with a
fixed bit width.  Floating-point lane kinds are omitted: no claim under
verification exercises them.  Lane values are carried as raw bit patterns,
i.e. natural numbers below `2 ^ bits`. -/
inductive LaneType
  | u8 | u16 | u32 | u64
  | i8 | i16 | i32 | i64
deriving DecidableEq, Repr

/-- Bit width of a lane kind. -/
def LaneType.bits : LaneType → Nat
  | .u8 => 8 | .u16 => 16 | .u32 => 32 | .u64 => 64
  | .i8 => 8 | .i16 => 16 | .i32 => 32 | .i64 => 64

/-- Modelled from the spec: a Vector Value (section 3) of the missing vector
modules — an ordered, fixed-length sequence of lanes sharing one Lane Type.
Lanes are stored as raw bit patterns (naturals below `2 ^ lane.bits`). -/
structure VectorValue where
  lane : LaneType
  lanes : List Nat
deriving DecidableEq, Repr

/-- Number of lanes of a Vector Value. -/
def VectorValue.laneCount (v : VectorValue) : Nat := v.lanes.length

/-- Total bit width of a Vector Value: lane count times lane bit width. -/
def VectorValue.totalBits (v : VectorValue) : Nat := v.laneCount * v.lane.bits

/-- Two Vector Values have identical shape when they share the Lane Type and
the lane count. -/
def VectorValue.sameShape (a b : VectorValue) : Prop :=
  a.lane = b.lane ∧ a.laneCount = b.laneCount

instance (a b : VectorValue) : Decidable (a.sameShape b) := by
  unfold VectorValue.sameShape; infer_instance

/-- Modelled from the spec: the error taxonomy of section 7 for the missing
checked accessors and the feature registry. -/
inductive SimdError
  | OutOfRange
  | UnknownFeature
deriving DecidableEq, Repr

deriving instance DecidableEq for Except

/-- Modelled from the spec: `new(lane₀, …, laneₙ₋₁)` of the missing vector
modules — constructs a Vector Value with the given lanes in order; each
argument is reduced to the bit pattern of the Lane Type (the argument types
enforce the domain in the original). -/
def VectorValue.new (t : LaneType) (ls : List Nat) : VectorValue :=
  ⟨t, ls.map (· % 2 ^ t.bits)⟩

/-- Modelled from the spec: `splat(value)` of the missing vector modules —
every one of the `n` lanes set to `value`. -/
def VectorValue.splat (t : LaneType) (n : Nat) (value : Nat) : VectorValue :=
  VectorValue.new t (List.replicate n value)

/-- Modelled from the spec: checked lane extraction of the missing vector
modules — fails with `OutOfRange` if the index is at or beyond the lane
count, never silently clamped. -/
def VectorValue.extract (v : VectorValue) (i : Nat) : Except SimdError Nat :=
  if h : i < v.lanes.length then .ok (v.lanes.get ⟨i, h⟩) else .error .OutOfRange

/-- Modelled from the spec: the element-wise binary operations of the Vector
Operation Set (section 4.2) of the missing vector modules.  Wrapping
arithmetic wraps per the Lane Type bit width; bitwise operations act on
the bit patterns; shifts take the right operand as the shift amount. -/
inductive ElemOp
  | wrappingAdd | wrappingSub | wrappingMul
  | bitAnd | bitOr | bitXor
  | shl | shr
deriving DecidableEq, Repr

/-- The scalar version of an element-wise operation on one pair of lane bit
patterns of the given Lane Type. -/
def ElemOp.scalar (op : ElemOp) (t : LaneType) (a b : Nat) : Nat :=
  match op with
  | .wrappingAdd => (a + b) % 2 ^ t.bits
  | .wrappingSub => (a + (2 ^ t.bits - b)) % 2 ^ t.bits
  | .wrappingMul => (a * b) % 2 ^ t.bits
  | .bitAnd => Nat.land a b
  | .bitOr => Nat.lor a b
  | .bitXor => Nat.xor a b
  | .shl => (a <<< b) % 2 ^ t.bits
  | .shr => a >>> b

/-- The vector version of an element-wise operation: the scalar operation
applied to corresponding lane pairs. -/
def ElemOp.vector (op : ElemOp) (a b : VectorValue) : VectorValue :=
  ⟨a.lane, List.zipWith (op.scalar a.lane) a.lanes b.lanes⟩

/-- Modelled from the spec: the saturating add variant (section 4.2) of the
missing vector modules — clamps to the representable range of the
(unsigned) Lane Type. -/
def scalarSaturatingAdd (t : LaneType) (a b : Nat) : Nat :=
  min (a + b) (2 ^ t.bits - 1)

/-- Scalar wrapping add, the scalar version of `ElemOp.wrappingAdd`. -/
def scalarWrappingAdd (t : LaneType) (a b : Nat) : Nat :=
  ElemOp.wrappingAdd.scalar t a b

/-- The `u32x4` portable vector type of the crate root doc example
(src/lib.rs lines 16 and 18); its lanes are 32-bit unsigned integers. -/
def u32x4.new (a b c d : Nat) : VectorValue :=
  VectorValue.new .u32 [a, b, c, d]

/-- `u32x4::splat` of the crate root doc example (src/lib.rs line 17). -/
def u32x4.splat (value : Nat) : VectorValue :=
  VectorValue.splat .u32 4 value

/-- `u32x4` addition, the `+` of the crate root doc example
(src/lib.rs line 18): element-wise wrapping add on 32-bit unsigned lanes. -/
def u32x4.add (a b : VectorValue) : VectorValue :=
  ElemOp.wrappingAdd.vector a b

/-- The equality comparison the crate root doc example applies to `u32x4`
values: `assert_eq!(a + b, u32x4::new(11, 12, 13, 14))` at src/lib.rs
line 18 invokes `PartialEq::eq`, whose result is a single `bool` — whole
values compare equal exactly when they are the same value. -/
def VectorValue.partialEq (a b : VectorValue) : Bool :=
  decide (a = b)

/-- Modelled from the spec: the lane-wise equality of section 4.1 that
produces a boolean-lane mask vector, one boolean lane (encoded 1 or 0) per
compared lane pair.  Stated from the spec words, for comparison with the
equality the code itself uses. -/
def VectorValue.maskEq (a b : VectorValue) : VectorValue :=
  ⟨a.lane, List.zipWith (fun x y => if x = y then 1 else 0) a.lanes b.lanes⟩

/-- Modelled from the spec: the Feature Registry (section 3) behind the
`cfg_feature_enabled!` macro documented at src/lib.rs lines 39 to 41, whose
implementation module `macros.rs` is missing — process-wide mapping from
Feature Flag name to detected boolean. -/
structure FeatureRegistry where
  entries : List (String × Bool)
deriving DecidableEq, Repr

/-- A flag name the registry recognizes. -/
def FeatureRegistry.knows (r : FeatureRegistry) (flag : String) : Prop :=
  (r.entries.lookup flag).isSome

instance (r : FeatureRegistry) (flag : String) : Decidable (r.knows flag) := by
  unfold FeatureRegistry.knows; infer_instance

/-- Modelled from the spec: `is_supported(flag)` of the Feature Detection
Gate (section 4.4) — returns the registry boolean for a recognized flag and
fails with `UnknownFeature` for a flag name the registry does not
recognize, rather than returning false. -/
def FeatureRegistry.isSupported (r : FeatureRegistry) (flag : String) :
    Except SimdError Bool :=
  match r.entries.lookup flag with
  | some b => .ok b
  | none => .error .UnknownFeature

/-- A conditional re-export as written in src/lib.rs: the re-exported
module name together with the list of `target_arch` values of its `#[cfg]`
attribute (`none` when the `pub use` carries no `#[cfg]` gate). -/
structure ReExport where
  gate : Option (List String)
  module : String
deriving DecidableEq, Repr

/-- The body of `pub mod simd` at src/lib.rs lines 86 to 92: four
unconditional re-exports, in source order. -/
def simdReexports : List ReExport :=
  [⟨none, "v128"⟩, ⟨none, "v256"⟩, ⟨none, "v512"⟩, ⟨none, "v64"⟩]

/-- The body of `pub mod vendor` at src/lib.rs lines 95 to 101: the `x86`
re-export gated on `target_arch` x86 or x86_64, the `arm` re-export gated
on `target_arch` arm or aarch64. -/
def vendorReexports : List ReExport :=
  [⟨some ["x86", "x86_64"], "x86"⟩, ⟨some ["arm", "aarch64"], "arm"⟩]

/-- Whether a re-export is active when compiling for the given
`target_arch` value: a `#[cfg(any(target_arch = ...))]` gate admits
exactly the listed architectures, and an ungated re-export is always
active. -/
def ReExport.activeOn (r : ReExport) (arch : String) : Bool :=
  match r.gate with
  | none => true
  | some archs => archs.contains arch

/-- The modules the `vendor` module re-exports on a given compile-time
`target_arch`, per src/lib.rs lines 95 to 101. -/
def vendorUses (arch : String) : List String :=
  (vendorReexports.filter (·.activeOn arch)).map (·.module)

/-- Total bit width of the vector types a portable vector module defines,
per the module names `v64`, `v128`, `v256`, `v512` declared at src/lib.rs
lines 106 to 109. -/
def moduleTotalBits : String → Option Nat
  | "v64" => some 64
  | "v128" => some 128
  | "v256" => some 256
  | "v512" => some 512
  | _ => none

/-- Helper: a lane-wise equality mask is all ones exactly when the two lane
lists of equal length are equal. -/
theorem zipMask_all_ones (xs ys : List Nat) (hlen : xs.length = ys.length) :
    ((List.zipWith (fun x y => if x = y then (1 : Nat) else 0) xs ys).all
      (fun l => l = 1) = true) ↔ xs = ys := by
  induction xs generalizing ys with
  | nil =>
    cases ys with
    | nil => simp
    | cons y ys => simp at hlen
  | cons x xs ih =>
    cases ys with
    | nil => simp at hlen
    | cons y ys =>
      simp only [List.length_cons, Nat.add_right_cancel_iff] at hlen
      by_cases hxy : x = y
      · simp [hxy, ih ys hlen]
      · simp [hxy]

end Stdsimd

open Stdsimd

/-- C1: For every supported combination of Lane Type, lane count, and
element-wise operation, applying the vector operation to two Vector Values
of identical shape yields, in each lane, the scalar version of that
operation applied to the corresponding pair of lanes: whenever checked
extraction at index `i` yields lanes `la` and `lb` of the operands, checked
extraction at `i` of the vector result yields `op.scalar` of `la` and
`lb`. -/
theorem elemOp_vector_lanewise (op : ElemOp) (a b : VectorValue)
    (i la lb : Nat) (_hs : a.sameShape b)
    (ha : a.extract i = .ok la) (hb : b.extract i = .ok lb) :
    (op.vector a b).extract i = .ok (op.scalar a.lane la lb) := by
  unfold VectorValue.extract at ha hb ⊢
  split at ha
  case isFalse => exact absurd ha (by simp)
  case isTrue h1 =>
    split at hb
    case isFalse => exact absurd hb (by simp)
    case isTrue h2 =>
      simp only [Except.ok.injEq] at ha hb
      have hlen : i < (ElemOp.vector op a b).lanes.length := by
        simp only [ElemOp.vector, List.length_zipWith]
        omega
      rw [dif_pos hlen]
      simp only [ElemOp.vector, List.get_eq_getElem, List.getElem_zipWith,
        Except.ok.injEq]
      rw [← ha, ← hb]
      simp [List.get_eq_getElem]

/-- C1 witness: the lane-wise law applied at lane 2 of the doc-example
vectors. -/
theorem elemOp_vector_lanewise_witness :
    (u32x4.new 1 2 3 4).sameShape (u32x4.splat 10)
    ∧ (u32x4.new 1 2 3 4).extract 2 = .ok 3
    ∧ (u32x4.splat 10).extract 2 = .ok 10
    ∧ (ElemOp.wrappingAdd.vector (u32x4.new 1 2 3 4)
        (u32x4.splat 10)).extract 2
        = .ok (ElemOp.wrappingAdd.scalar (u32x4.new 1 2 3 4).lane 3 10) :=
  ⟨by decide, by decide, by decide,
    elemOp_vector_lanewise ElemOp.wrappingAdd (u32x4.new 1 2 3 4)
      (u32x4.splat 10) 2 3 10 (by decide) (by decide) (by decide)⟩

/-- C2: Adding the Vector Value `u32x4::new(1,2,3,4)` to `u32x4::splat(10)`
produces a Vector Value exactly equal to `u32x4::new(11,12,13,14)`
(the doc example at src/lib.rs lines 16 to 18). -/
theorem u32x4_add_doc_example :
    u32x4.add (u32x4.new 1 2 3 4) (u32x4.splat 10)
      = u32x4.new 11 12 13 14 := by decide

/-- C3 counterexample: the equality comparison the crate itself applies to
Vector Values — the `PartialEq` consumed by `assert_eq!` at src/lib.rs
line 18 — returns a single `bool`, so it cannot carry one boolean lane per
compared lane pair: comparing `new(1,2,3,4)` against `new(1,2,0,4)` and
against `new(0,2,3,4)` yields the identical result, although the two
spec-side lane masks differ (they disagree in lanes 0 and 2). -/
theorem partialEq_not_mask_counterexample :
    VectorValue.partialEq (u32x4.new 1 2 3 4) (u32x4.new 1 2 0 4)
      = VectorValue.partialEq (u32x4.new 1 2 3 4) (u32x4.new 0 2 3 4)
    ∧ VectorValue.maskEq (u32x4.new 1 2 3 4) (u32x4.new 1 2 0 4)
      ≠ VectorValue.maskEq (u32x4.new 1 2 3 4) (u32x4.new 0 2 3 4) := by
  decide

/-- C3 amended: for every pair of Vector Values of the same (Lane Type,
lane count), the equality comparison the code uses returns a single scalar
boolean, true exactly when every lane of the lane-wise boolean mask is
set — i.e. whole-value equality, not a mask vector. -/
theorem partialEq_true_iff_mask_all_ones (a b : VectorValue)
    (hs : a.sameShape b) :
    VectorValue.partialEq a b = true
      ↔ (VectorValue.maskEq a b).lanes.all (fun l => l = 1) = true := by
  obtain ⟨hl, hc⟩ := hs
  unfold VectorValue.partialEq VectorValue.maskEq
  simp only [decide_eq_true_eq]
  rw [zipMask_all_ones a.lanes b.lanes hc]
  cases a with
  | mk la ls =>
    cases b with
    | mk lb ms =>
      simp_all

/-- C3 amended witness: the law applied to the doc-example sum and the
expected vector. -/
theorem partialEq_true_iff_mask_all_ones_witness :
    (u32x4.add (u32x4.new 1 2 3 4) (u32x4.splat 10)).sameShape
      (u32x4.new 11 12 13 14)
    ∧ (VectorValue.partialEq
        (u32x4.add (u32x4.new 1 2 3 4) (u32x4.splat 10))
        (u32x4.new 11 12 13 14) = true
      ↔ (VectorValue.maskEq
          (u32x4.add (u32x4.new 1 2 3 4) (u32x4.splat 10))
          (u32x4.new 11 12 13 14)).lanes.all (fun l => l = 1) = true) :=
  ⟨by decide,
    partialEq_true_iff_mask_all_ones
      (u32x4.add (u32x4.new 1 2 3 4) (u32x4.splat 10))
      (u32x4.new 11 12 13 14) (by decide)⟩

/-- C4: for every feature-flag name the Feature Registry does not
recognize, the feature-support query fails with `UnknownFeature` rather
than returning false. -/
theorem isSupported_unknown_flag (r : FeatureRegistry) (flag : String)
    (h : ¬ r.knows flag) :
    r.isSupported flag = .error .UnknownFeature := by
  unfold FeatureRegistry.knows at h
  unfold FeatureRegistry.isSupported
  cases hl : r.entries.lookup flag with
  | none => rfl
  | some b => rw [hl] at h; simp at h

/-- C4 witness: querying a registry that knows only `avx2` for the
unknown name `avx9` fails with `UnknownFeature`. -/
theorem isSupported_unknown_flag_witness :
    ¬ (FeatureRegistry.mk [("avx2", true)]).knows "avx9"
    ∧ (FeatureRegistry.mk [("avx2", true)]).isSupported "avx9"
      = .error .UnknownFeature :=
  ⟨by decide,
    isSupported_unknown_flag (FeatureRegistry.mk [("avx2", true)]) "avx9"
      (by decide)⟩

/-- C5: for every Vector Value with `n` lanes, checked extraction at index
`n` fails with `OutOfRange`, extraction at `n - 1` succeeds when the
vector is nonempty, and in general extraction at `i` succeeds exactly when
`i` is below the lane count and fails with `OutOfRange` otherwise. -/
theorem extract_ok_iff_index_lt (v : VectorValue) :
    v.extract v.laneCount = .error .OutOfRange
    ∧ (v.laneCount ≠ 0 → ∃ l, v.extract (v.laneCount - 1) = .ok l)
    ∧ (∀ i, i < v.laneCount → ∃ l, v.extract i = .ok l)
    ∧ (∀ i, ¬ i < v.laneCount → v.extract i = .error .OutOfRange) := by
  refine ⟨?_, ?_, ?_, ?_⟩
  · unfold VectorValue.extract VectorValue.laneCount
    rw [dif_neg (by omega)]
  · intro hn
    unfold VectorValue.extract VectorValue.laneCount at *
    have h : v.lanes.length - 1 < v.lanes.length := by omega
    exact ⟨_, dif_pos h⟩
  · intro i hi
    unfold VectorValue.extract VectorValue.laneCount at *
    exact ⟨_, dif_pos hi⟩
  · intro i hi
    unfold VectorValue.extract VectorValue.laneCount at *
    rw [dif_neg hi]

/-- C5 witness: the boundary behavior at the four-lane doc-example
vector. -/
theorem extract_ok_iff_index_lt_witness :
    (u32x4.new 1 2 3 4).extract 4 = .error .OutOfRange
    ∧ (∃ l, (u32x4.new 1 2 3 4).extract 3 = .ok l) :=
  ⟨(extract_ok_iff_index_lt (u32x4.new 1 2 3 4)).1,
    (extract_ok_iff_index_lt (u32x4.new 1 2 3 4)).2.1 (by decide)⟩

/-- C6: on 8-bit unsigned lanes, the wrapping add of 255 and 1 yields 0
while the saturating add of the same operands yields 255; the two variants
are distinct operations. -/
theorem u8_wrapping_vs_saturating_add :
    scalarWrappingAdd .u8 255 1 = 0
    ∧ scalarSaturatingAdd .u8 255 1 = 255
    ∧ scalarWrappingAdd .u8 255 1 ≠ scalarSaturatingAdd .u8 255 1 := by
  decide

/-- C8: for every supported Lane Type, every lane list within the Lane
Type domain, and every index in range, constructing a Vector Value via
`new` and extracting lane `i` returns the `i`-th argument. -/
theorem new_extract_roundtrip (t : LaneType) (ls : List Nat) (i : Nat)
    (hi : i < ls.length) (hdom : ∀ l ∈ ls, l < 2 ^ t.bits) :
    (VectorValue.new t ls).extract i = .ok (ls.get ⟨i, hi⟩) := by
  unfold VectorValue.new VectorValue.extract
  have hlen : i < (ls.map (· % 2 ^ t.bits)).length := by
    simpa using hi
  rw [dif_pos hlen]
  simp only [List.get_eq_getElem, List.getElem_map, Except.ok.injEq]
  exact Nat.mod_eq_of_lt (hdom _ (List.getElem_mem hi))

/-- C8 witness: the round trip at lane 2 of the doc-example arguments. -/
theorem new_extract_roundtrip_witness :
    2 < [1, 2, 3, 4].length
    ∧ (∀ l ∈ [1, 2, 3, 4], l < 2 ^ LaneType.bits .u32)
    ∧ (VectorValue.new .u32 [1, 2, 3, 4]).extract 2 = .ok 3 :=
  ⟨by decide, by decide,
    new_extract_roundtrip .u32 [1, 2, 3, 4] 2 (by decide) (by decide)⟩

/-- C9: the `simd` module (src/lib.rs lines 86 to 92) re-exports exactly
the four portable vector modules of total bit-widths 128, 256, 512 and 64,
in that source order, each re-export unconditional (no `#[cfg]` gate and
hence active on every compile-time target architecture): every vector type
reached through this surface has a total width among 64, 128, 256 and 512
bits. -/
theorem simd_surface_widths :
    simdReexports.all (fun r => r.gate.isNone) = true
    ∧ simdReexports.map (fun r => moduleTotalBits r.module)
        = [some 128, some 256, some 512, some 64]
    ∧ ∀ arch : String, simdReexports.filter (·.activeOn arch) = simdReexports :=
  ⟨by decide, by decide, fun _ => rfl⟩

/-- C10: the `vendor` module (src/lib.rs lines 95 to 101) re-exports
exactly the x86 intrinsics when the compile-time target architecture is
x86 or x86_64, exactly the arm intrinsics when it is arm or aarch64, and
nothing on every other target architecture. -/
theorem vendor_arch_gating :
    vendorUses "x86" = ["x86"]
    ∧ vendorUses "x86_64" = ["x86"]
    ∧ vendorUses "arm" = ["arm"]
    ∧ vendorUses "aarch64" = ["arm"]
    ∧ ∀ arch : String, arch ∉ ["x86", "x86_64", "arm", "aarch64"] →
        vendorUses arch = [] := by
  refine ⟨rfl, rfl, rfl, rfl, ?_⟩
  intro arch h
  simp only [List.mem_cons, List.not_mem_nil, or_false, not_or] at h
  obtain ⟨h1, h2, h3, h4⟩ := h
  simp [vendorUses, vendorReexports, ReExport.activeOn, List.contains,
    List.elem, h1, h2, h3, h4]

/-- C10 witness: on a target architecture outside the four gated ones the
`vendor` module exports nothing. -/
theorem vendor_arch_gating_witness :
    "riscv64" ∉ ["x86", "x86_64", "arm", "aarch64"]
    ∧ vendorUses "riscv64" = [] :=
  ⟨by decide, vendor_arch_gating.2.2.2.2 "riscv64" (by decide)⟩
